import Mathlib

/-!
Verification of the ClassifyHub data-access and coordination layer.

This file shallowly embeds the parts of the ClassifyHub sources that the
claims are about:

* `src/github.py` — the per-entity disk cache for GitHub API responses
  (`Github._read_metadata`, `Github._save_metadata`, `Github._test_cache_valid`,
  `Github._get_data`).
* `src/utility.py` — the stale-lock recovery procedure (`check_stale_lock`).
* `src/processor.py` — the multi-process batch scheduler (`batch`).

Python dictionaries are modelled as association lists, file presence as
`Option`/list membership, day ordinals as `Int`, and lock timeouts (Python
floats produced by true division) as `ℚ`.  The network and the process pool
are modelled by explicit parameters: the outcome that `requests.get` would
produce, and an execution record describing what each worker process did.
-/

namespace ClassifyHub

/-! ## Association-list helpers (model of Python `dict` assignment) -/

/-- Remove every binding of `key` (used to model `dict` overwrite and
`os.remove`). -/
def eraseA {α : Type} (key : String) (l : List (String × α)) : List (String × α) :=
  l.filter (fun p => !(p.1 == key))

/-- Overwrite the binding of `key` with `v`, as Python `d[key] = v` does. -/
def insertA {α : Type} (key : String) (v : α) (l : List (String × α)) :
    List (String × α) :=
  (key, v) :: eraseA key l

theorem lookup_insertA_self {α : Type} (key : String) (v : α)
    (l : List (String × α)) : (insertA key v l).lookup key = some v := by
  simp [insertA, List.lookup]

theorem lookup_eraseA_self {α : Type} (key : String) (l : List (String × α)) :
    (eraseA key l).lookup key = none := by
  induction l with
  | nil => rfl
  | cons p t ih =>
    by_cases h : p.1 = key
    · simpa [eraseA, h] using ih
    · have hb : (p.1 == key) = false := by simp [h]
      have hb2 : (key == p.1) = false := by simp [Ne.symm h]
      simpa [eraseA, List.filter, hb, List.lookup, hb2] using ih

theorem lookup_eraseA_ne {α : Type} (key k : String) (l : List (String × α))
    (h : k ≠ key) : (eraseA key l).lookup k = l.lookup k := by
  induction l with
  | nil => rfl
  | cons p t ih =>
    by_cases hp : p.1 = key
    · have hb : (p.1 == key) = true := by simp [hp]
      have hk : (k == p.1) = false := by simp [hp, h]
      simp [eraseA, List.filter, hb, List.lookup, hk] at ih ⊢
      exact ih
    · have hb : (p.1 == key) = false := by simp [hp]
      by_cases hk : k = p.1
      · simp [eraseA, List.filter, hb, List.lookup, hk]
      · have hk2 : (k == p.1) = false := by simp [hk]
        simp [eraseA, List.filter, hb, List.lookup, hk2] at ih ⊢
        exact ih

/-! ## Marker-list helpers (model of a set of marker files in a directory) -/

/-- Remove a marker, as the `os.remove` at `github.py:167-171` does. -/
def removeMarker (key : String) (l : List String) : List String :=
  l.filter (fun k => !(k == key))

theorem not_mem_removeMarker_self (key : String) (l : List String) :
    key ∉ removeMarker key l := by
  simp [removeMarker, List.mem_filter]

theorem contains_removeMarker_self (key : String) (l : List String) :
    (removeMarker key l).contains key = false := by
  simpa using not_mem_removeMarker_self key l

/-! ## Substring test (model of Python `'needle' in haystack`) -/

/-- Model of Python list/str prefix comparison. -/
def charsHavePrefix : List Char → List Char → Bool
  | [], _ => true
  | _ :: _, [] => false
  | a :: as, b :: bs => a == b && charsHavePrefix as bs

/-- Model of the Python substring test `needle in haystack`. -/
def charsHaveSubstr (needle : List Char) : List Char → Bool
  | [] => charsHavePrefix needle []
  | c :: rest => charsHavePrefix needle (c :: rest) || charsHaveSubstr needle rest

/-- Model of Python `needle in haystack` on strings. -/
def strHasSubstr (needle haystack : String) : Bool :=
  charsHaveSubstr needle.toList haystack.toList

/-- The rate-limit test at `github.py:189`:
`'API rate limit exceeded' in data['message']`. -/
def isRateLimitMessage (m : String) : Bool :=
  strHasSubstr "API rate limit exceeded" m

/-! ## The resource cache (`src/github.py`, class `Github`)

The model fixes one entity (one `dev/repo` cache directory).  The on-disk
artifacts and the in-memory `_cache_time` dictionary form the state:

* `dataFile` — the `<data_key>` payload files.  A binding `(k, some p)` is a
  file that parses to payload `p`; `(k, none)` is a file that exists but
  fails to parse (`json.load` raises, `github.py:159-164`); no binding means
  the file does not exist.
* `errorMarker` — the set of `<data_key>_ERROR_GITHUB` marker files.
* `metadata` — the `METADATA` file: `none` if absent, otherwise the
  serialized day-number journal.
* `cacheTime` — the in-memory `self._cache_time` dictionary.

Payloads are strings, day ordinals (`datetime.date.today().toordinal()`)
are integers. -/

/-- One entity's cache directory plus the in-memory journal copy. -/
structure CacheState where
  dataFile : List (String × Option String)
  errorMarker : List String
  metadata : Option (List (String × Int))
  cacheTime : List (String × Int)
deriving DecidableEq

/-- The configuration keys of `configserver.py` that `_get_data` reads. -/
structure Config where
  maximumCacheAge : Int
  forceCacheUpdate : Bool
deriving DecidableEq

/-- `Github._read_metadata` (`github.py:89-98`): if the `METADATA` file
exists, replace the in-memory journal with its contents. -/
def readMetadata (s : CacheState) : CacheState :=
  match s.metadata with
  | some m => { s with cacheTime := m }
  | none => s

/-- `Github._save_metadata` (`github.py:104-111`): write the in-memory
journal to the `METADATA` file. -/
def saveMetadata (s : CacheState) : CacheState :=
  { s with metadata := some s.cacheTime }

/-- The `age` expression of `Github._test_cache_valid` (`github.py:124`):
`abs(today - cache_time[key])` if the key is journaled, otherwise
`maximum_cache_age + 1`. -/
def cacheAge (cfg : Config) (today : Int) (ct : List (String × Int))
    (key : String) : Int :=
  match ct.lookup key with
  | some t => abs (today - t)
  | none => cfg.maximumCacheAge + 1

/-- The `returnvalue` expression of `Github._test_cache_valid`
(`github.py:125-129`), evaluated on a state whose journal has already been
refreshed by `_read_metadata`. -/
def cacheValidB (cfg : Config) (today : Int) (s1 : CacheState)
    (key : String) : Bool :=
  ((s1.dataFile.lookup key).isSome || s1.errorMarker.contains key)
    && !cfg.forceCacheUpdate
    && decide (cacheAge cfg today s1.cacheTime key < cfg.maximumCacheAge)

/-- `Github._test_cache_valid` (`github.py:122-130`): it first runs
`_read_metadata` (mutating `self._cache_time`), then evaluates the validity
expression.  The returned pair is (result, state after the call). -/
def testCacheValid (cfg : Config) (today : Int) (s : CacheState)
    (key : String) : Bool × CacheState :=
  (cacheValidB cfg today (readMetadata s) key, readMetadata s)

/-- Outcome of the one `requests.get` call in `_get_data`
(`github.py:173-181`): either the request raises (no response), or a
response with a status code, an optional machine-readable `message` field
and a body. -/
inductive FetchResult where
  | connectionFailure
  | response (status : Nat) (message : Option String) (body : String)
deriving DecidableEq

/-- The Python exception classes of `github.py:33-40`.  `_get_data` only
ever raises the base class `GithubError`; `GithubConnectionError` is
declared but never constructed. -/
inductive GithubExc where
  | githubError
  | githubConnectionError
deriving DecidableEq

/-- Result of a `_get_data` call: a returned payload or a raised
exception. -/
inductive GetResult where
  | ok (p : String)
  | error (e : GithubExc)
deriving DecidableEq

/-- A `_get_data` call's result, final state, and how many network requests
it performed. -/
structure GetOutcome where
  result : GetResult
  state : CacheState
  fetches : Nat
deriving DecidableEq

/-- The cache-update part of `Github._get_data` (`github.py:166-210`),
entered when the cached entry is invalid or unreadable:
remove a stale error marker (`167-171`), perform the request (`173-181`),
then classify the outcome (`183-210`). -/
def updateCache (today : Int) (key : String) (fetch : FetchResult)
    (s : CacheState) : GetOutcome :=
  let s2 : CacheState := { s with errorMarker := removeMarker key s.errorMarker }
  match fetch with
  | .connectionFailure =>
      -- `github.py:179-181`: the request raised; raise GithubError, cache nothing.
      ⟨.error .githubError, s2, 1⟩
  | .response status message body =>
      if status ≠ 200 then
        if (message.map isRateLimitMessage).getD false then
          -- `github.py:189-191`: rate limit; raise GithubError, cache nothing.
          ⟨.error .githubError, s2, 1⟩
        else
          -- `github.py:192-197`: write the error marker, stamp the journal,
          -- save it, raise GithubError.
          let s3 : CacheState :=
            { s2 with errorMarker := key :: s2.errorMarker,
                      cacheTime := insertA key today s2.cacheTime }
          ⟨.error .githubError, saveMetadata s3, 1⟩
      else
        -- `github.py:199-210`: write the payload, stamp the journal, save it.
        let s3 : CacheState :=
          { s2 with dataFile := insertA key (some body) s2.dataFile,
                    cacheTime := insertA key today s2.cacheTime }
        ⟨.ok body, saveMetadata s3, 1⟩

/-- `Github._get_data` (`github.py:144-210`) for one call, with the network
outcome that `requests.get` would produce passed in as `fetch`.  The
stale-lock checks and the lock acquisitions do not change the cache state
in a single-process run and are modelled separately. -/
def getData (cfg : Config) (today : Int) (key : String) (fetch : FetchResult)
    (s : CacheState) : GetOutcome :=
  let s1 := readMetadata s
  if cacheValidB cfg today s1 key then
    if s1.errorMarker.contains key then
      -- `github.py:154-156`: cached error is re-served.
      ⟨.error .githubError, s1, 0⟩
    else
      match s1.dataFile.lookup key with
      | some (some p) =>
          -- `github.py:159-162`: cached payload is returned.
          ⟨.ok p, s1, 0⟩
      | _ =>
          -- `github.py:163-164`: unreadable data file, fall through to the
          -- download.
          updateCache today key fetch s1
  else
    updateCache today key fetch s1

/-! ## Stale-lock recovery (`src/utility.py`, `check_stale_lock`)

`check_stale_lock(lock_path, time=20)` is modelled as the trace of lock
operations it performs.  Time quantities are rationals (Python floats
produced by true division).  The non-deterministic inputs become
parameters:

* `worker` — the worker count computed at `utility.py:100-102`
  (`cpu_count` unless `number_worker > 0`), see `resolveWorker`;
* `jitter i` — the value `random.random()` drawn on the `i`-th iteration of
  the gate loop;
* `gateFailures` — how many acquisitions of the `<path>_STALE` gate time
  out before one succeeds (each timeout breaks the gate and retries,
  `utility.py:106-115`);
* `lockTimesOut` — whether the acquisition of `<path>` itself at
  `utility.py:118` times out. -/

/-- Worker-count resolution used by `utility.py:100-102` and
`processor.py:164-166`. -/
def resolveWorker (cpuCount : Nat) (numberWorker : Int) : Nat :=
  if numberWorker > 0 then numberWorker.toNat else cpuCount

/-- One observable lock operation. -/
inductive LockEvent where
  | acquire (path : String) (timeout : ℚ) (success : Bool)
  | breakLock (path : String)
  | release (path : String)
deriving DecidableEq

/-- The gate-acquisition timeout at `utility.py:110`:
`time + time / 5 * worker + (time / 2) * random.random()`. -/
def gateTimeout (time : ℚ) (worker : Nat) (r : ℚ) : ℚ :=
  time + time / 5 * worker + time / 2 * r

/-- The `while not test_lock.i_am_locking()` loop of `utility.py:106-115`:
attempt `i` acquires the `<path>_STALE` gate with the jittered long
timeout; a timeout breaks the gate and retries. -/
def gateLoop (gatePath : String) (time : ℚ) (worker : Nat)
    (jitter : Nat → ℚ) : Nat → Nat → List LockEvent
  | i, 0 => [.acquire gatePath (gateTimeout time worker (jitter i)) true]
  | i, n + 1 =>
      .acquire gatePath (gateTimeout time worker (jitter i)) false
        :: .breakLock gatePath
        :: gateLoop gatePath time worker jitter (i + 1) n

/-- `check_stale_lock` (`utility.py:99-131`) as the trace of lock events it
performs: acquire the `<path>_STALE` gate (long, jittered timeout,
retrying with `break_lock` on timeout), then acquire `<path>` with the
plain `time` timeout — releasing it at once on success, breaking it on
timeout — and finally release the gate. -/
def checkStaleLock (lockPath : String) (time : ℚ) (worker : Nat)
    (jitter : Nat → ℚ) (gateFailures : Nat) (lockTimesOut : Bool) :
    List LockEvent :=
  gateLoop (lockPath ++ "_STALE") time worker jitter 0 gateFailures
    ++ (if lockTimesOut then
          [.acquire lockPath time false, .breakLock lockPath]
        else
          [.acquire lockPath time true, .release lockPath])
    ++ [.release (lockPath ++ "_STALE")]

/-! ## Batch scheduler (`src/processor.py`, `batch`)

`batch(input)` spawns `worker` processes running `_batch_worker`, each of
which repeatedly takes an item from the input queue, classifies it, and
pushes one result to the output queue until it observes the input queue
empty, then exits cleanly (`processor.py:39-54`).  The submitting process
drains the output queue while workers run and once more after joining them
(`processor.py:186-214`), so every pushed result is collected.

A run is modelled by what each worker process did (`WorkerRun`) plus the
number of submitted items no worker ever took (`leftover`).  `ValidExec`
states the facts guaranteed by the queue discipline:

* there are exactly `w` workers (`processor.py:177-178`);
* consumed items and leftover items partition the `n` submitted items;
* a worker pushes at most one result per item it consumed;
* a worker with exit code 0 exited through `sys.exit(0)` in the
  `queue.Empty` handler, so it pushed a result for every item it consumed
  and it observed the input queue empty — hence nothing was left over. -/

/-- What one worker process did during a `batch` run. -/
structure WorkerRun where
  consumed : Nat
  completed : Nat
  clean : Bool
deriving DecidableEq

/-- One execution of the worker pool. -/
structure BatchExec where
  workers : List WorkerRun
  leftover : Nat
deriving DecidableEq

/-- Items taken from the input queue, summed over the pool. -/
def totalConsumed (e : BatchExec) : Nat :=
  (e.workers.map (fun wk => wk.consumed)).sum

/-- Results pushed to the output queue, summed over the pool. -/
def totalCompleted (e : BatchExec) : Nat :=
  (e.workers.map (fun wk => wk.completed)).sum

/-- The `failed` list of `processor.py:201-204`: workers whose exit code is
non-zero. -/
def failedCount (e : BatchExec) : Nat :=
  (e.workers.filter (fun wk => !wk.clean)).length

/-- The executions of a `batch` run on `n` items with `w` workers that the
queue discipline of `processor.py` permits. -/
def ValidExec (n w : Nat) (e : BatchExec) : Prop :=
  e.workers.length = w
    ∧ totalConsumed e + e.leftover = n
    ∧ (∀ wk ∈ e.workers, wk.completed ≤ wk.consumed)
    ∧ (∀ wk ∈ e.workers, wk.clean = true → wk.completed = wk.consumed)
    ∧ ((∃ wk ∈ e.workers, wk.clean = true) → e.leftover = 0)

instance (n w : Nat) (e : BatchExec) : Decidable (ValidExec n w e) := by
  unfold ValidExec; infer_instance

/-- What `batch` reports back: `len(result)`, `len(failed)`, and whether
the reconciliation mismatch of `processor.py:216-217` is logged. -/
structure BatchReport where
  results : Nat
  failed : Nat
  mismatchLogged : Bool
deriving DecidableEq

/-- The collection/accounting part of `batch` (`processor.py:183-219`) for
a given pool execution: the drain loop plus the final drain pass collect
every pushed result, failures are counted, and a result-count mismatch is
logged. -/
def batchRun (n : Nat) (e : BatchExec) : BatchReport :=
  { results := totalCompleted e
    failed := failedCount e
    mismatchLogged := totalCompleted e != n }

/-- Resources `batch` creates before the drain loop: the two
`multiprocessing.Queue`s (`processor.py:168-169`) and the worker processes
(`processor.py:177-181`). -/
structure BatchResources where
  queuesCreated : Bool
  processesSpawned : Nat
deriving DecidableEq

/-- `batch` (`processor.py:160-219`) end to end: the `len(input) == 0`
early return at `processor.py:161-162` creates nothing; otherwise the
worker count is resolved, both queues are created, `worker` processes are
spawned and the run is collected. -/
def batchTop (cpuCount : Nat) (numberWorker : Int) (n : Nat)
    (e : BatchExec) : BatchReport × BatchResources :=
  if n = 0 then
    (⟨0, 0, false⟩, ⟨false, 0⟩)
  else
    (batchRun n e, ⟨true, resolveWorker cpuCount numberWorker⟩)

/-! ## Unfolding lemmas for the cache model -/

theorem readMetadata_idem (s : CacheState) :
    readMetadata (readMetadata s) = readMetadata s := by
  cases h : s.metadata <;> simp [readMetadata, h]

theorem readMetadata_saveMetadata (s : CacheState) :
    readMetadata (saveMetadata s) = saveMetadata s := rfl

theorem readMetadata_metadata (s : CacheState) :
    (readMetadata s).metadata = s.metadata := by
  cases h : s.metadata <;> simp [readMetadata, h]

theorem updateCache_fetches (today : Int) (key : String) (fetch : FetchResult)
    (s : CacheState) : (updateCache today key fetch s).fetches = 1 := by
  cases fetch with
  | connectionFailure => rfl
  | response status message body =>
    by_cases h : status = 200
    · simp [updateCache, h]
    · by_cases hm : (message.map isRateLimitMessage).getD false = true
      · simp [updateCache, h, hm]
      · simp [updateCache, h, hm]

theorem getData_invalid (cfg : Config) (today : Int) (key : String)
    (fetch : FetchResult) (s : CacheState)
    (h : cacheValidB cfg today (readMetadata s) key = false) :
    getData cfg today key fetch s = updateCache today key fetch (readMetadata s) := by
  simp [getData, h]

theorem getData_valid_err (cfg : Config) (today : Int) (key : String)
    (fetch : FetchResult) (s : CacheState)
    (h : cacheValidB cfg today (readMetadata s) key = true)
    (hm : (readMetadata s).errorMarker.contains key = true) :
    getData cfg today key fetch s = ⟨.error .githubError, readMetadata s, 0⟩ := by
  have hm2 : key ∈ (readMetadata s).errorMarker := by simpa using hm
  simp [getData, h, hm2]

theorem getData_valid_ok (cfg : Config) (today : Int) (key : String)
    (fetch : FetchResult) (s : CacheState) (p : String)
    (h : cacheValidB cfg today (readMetadata s) key = true)
    (hm : (readMetadata s).errorMarker.contains key = false)
    (hd : (readMetadata s).dataFile.lookup key = some (some p)) :
    getData cfg today key fetch s = ⟨.ok p, readMetadata s, 0⟩ := by
  have hm2 : key ∉ (readMetadata s).errorMarker := by simpa using hm
  simp [getData, h, hm2, hd]

theorem updateCache_conn (today : Int) (key : String) (s : CacheState) :
    updateCache today key .connectionFailure s
      = ⟨.error .githubError,
         ⟨s.dataFile, removeMarker key s.errorMarker, s.metadata, s.cacheTime⟩, 1⟩ := rfl

theorem updateCache_success (today : Int) (key : String)
    (message : Option String) (body : String) (s : CacheState) :
    updateCache today key (.response 200 message body) s
      = ⟨.ok body,
         ⟨insertA key (some body) s.dataFile, removeMarker key s.errorMarker,
          some (insertA key today s.cacheTime), insertA key today s.cacheTime⟩, 1⟩ := by
  simp [updateCache, saveMetadata]

theorem updateCache_rateLimited (today : Int) (key : String) (status : Nat)
    (m body : String) (s : CacheState)
    (hst : status ≠ 200) (hrl : isRateLimitMessage m = true) :
    updateCache today key (.response status (some m) body) s
      = ⟨.error .githubError,
         ⟨s.dataFile, removeMarker key s.errorMarker, s.metadata, s.cacheTime⟩, 1⟩ := by
  simp [updateCache, hst, hrl]

theorem updateCache_httpError (today : Int) (key : String) (status : Nat)
    (message : Option String) (body : String) (s : CacheState)
    (hst : status ≠ 200)
    (hmsg : ∀ m, message = some m → isRateLimitMessage m = false) :
    updateCache today key (.response status message body) s
      = ⟨.error .githubError,
         ⟨s.dataFile, key :: removeMarker key s.errorMarker,
          some (insertA key today s.cacheTime), insertA key today s.cacheTime⟩, 1⟩ := by
  have h : (message.map isRateLimitMessage).getD false = false := by
    cases message with
    | none => rfl
    | some m => simpa using hmsg m rfl
  simp [updateCache, hst, h, saveMetadata]

theorem getData_fetches_le_one (cfg : Config) (today : Int) (key : String)
    (fetch : FetchResult) (s : CacheState) :
    (getData cfg today key fetch s).fetches ≤ 1 := by
  by_cases h : cacheValidB cfg today (readMetadata s) key
  · by_cases hm : (readMetadata s).errorMarker.contains key
    · simp [getData_valid_err cfg today key fetch s h hm]
    · cases hd : (readMetadata s).dataFile.lookup key with
      | some v =>
        cases v with
        | some p => simp [getData_valid_ok cfg today key fetch s p h (by simpa using hm) hd]
        | none =>
          simp only [getData, h, if_true, hm, Bool.false_eq_true, if_false, hd]
          exact le_of_eq (updateCache_fetches today key fetch (readMetadata s))
      | none =>
        simp only [getData, h, if_true, hm, Bool.false_eq_true, if_false, hd]
        exact le_of_eq (updateCache_fetches today key fetch (readMetadata s))
  · rw [getData_invalid cfg today key fetch s (by simpa using h)]
    exact le_of_eq (updateCache_fetches today key fetch (readMetadata s))

theorem getData_ok_state (cfg : Config) (today : Int) (key : String)
    (fetch : FetchResult) (s : CacheState) (p : String)
    (hforce : cfg.forceCacheUpdate = false)
    (hage : 0 < cfg.maximumCacheAge)
    (h : (getData cfg today key fetch s).result = .ok p) :
    readMetadata (getData cfg today key fetch s).state
        = (getData cfg today key fetch s).state
    ∧ cacheValidB cfg today (getData cfg today key fetch s).state key = true
    ∧ (getData cfg today key fetch s).state.errorMarker.contains key = false
    ∧ (getData cfg today key fetch s).state.dataFile.lookup key = some (some p) := by
  have hupd : ∀ s1 : CacheState, readMetadata s1 = s1 →
      (updateCache today key fetch s1).result = .ok p →
      readMetadata (updateCache today key fetch s1).state
          = (updateCache today key fetch s1).state
      ∧ cacheValidB cfg today (updateCache today key fetch s1).state key = true
      ∧ (updateCache today key fetch s1).state.errorMarker.contains key = false
      ∧ (updateCache today key fetch s1).state.dataFile.lookup key
          = some (some p) := by
    intro s1 _ hok
    cases fetch with
    | connectionFailure => simp [updateCache_conn] at hok
    | response status message body =>
      by_cases hst : status = 200
      · subst hst
        rw [updateCache_success] at hok ⊢
        simp only [GetResult.ok.injEq] at hok
        subst hok
        refine ⟨rfl, ?_, contains_removeMarker_self key s1.errorMarker, ?_⟩
        · simp [cacheValidB, cacheAge, lookup_insertA_self, hforce,
                contains_removeMarker_self]
          exact hage
        · simpa using lookup_insertA_self key (some body) s1.dataFile
      · by_cases hm : (message.map isRateLimitMessage).getD false = true
        · simp [updateCache, hst, hm] at hok
        · simp [updateCache, hst, hm] at hok
  by_cases hv : cacheValidB cfg today (readMetadata s) key
  · by_cases hm : (readMetadata s).errorMarker.contains key
    · rw [getData_valid_err cfg today key fetch s hv hm] at h
      simp at h
    · cases hd : (readMetadata s).dataFile.lookup key with
      | some v =>
        cases v with
        | some q =>
          rw [getData_valid_ok cfg today key fetch s q hv (by simpa using hm) hd] at h ⊢
          simp only [GetResult.ok.injEq] at h
          subst h
          exact ⟨readMetadata_idem s, hv, by simpa using hm, hd⟩
        | none =>
          have hgd : getData cfg today key fetch s
              = updateCache today key fetch (readMetadata s) := by
            have hm2 : key ∉ (readMetadata s).errorMarker := by simpa using hm
            simp [getData, hv, hm2, hd]
          rw [hgd] at h ⊢
          exact hupd (readMetadata s) (readMetadata_idem s) h
      | none =>
        have hgd : getData cfg today key fetch s
            = updateCache today key fetch (readMetadata s) := by
          have hm2 : key ∉ (readMetadata s).errorMarker := by simpa using hm
          simp [getData, hv, hm2, hd]
        rw [hgd] at h ⊢
        exact hupd (readMetadata s) (readMetadata_idem s) h
  · rw [getData_invalid cfg today key fetch s (by simpa using hv)] at h ⊢
    exact hupd (readMetadata s) (readMetadata_idem s) h

/-- Claim C1: with the force-refresh flag unset (and a positive configured
maximum cache age, as in the spec's concrete scenario), calling `_get_data`
twice in immediate succession returns the same payload twice and performs
at most one network request in total: the first successful call either
served the cache (zero requests) or wrote the payload and stamped the
journal, so the second call is served from the cache with zero requests. -/
theorem cache_get_twice_idempotent (cfg : Config) (today : Int) (key : String)
    (f1 f2 : FetchResult) (s : CacheState) (p : String)
    (hforce : cfg.forceCacheUpdate = false)
    (hage : 0 < cfg.maximumCacheAge)
    (h1 : (getData cfg today key f1 s).result = .ok p) :
    (getData cfg today key f2 (getData cfg today key f1 s).state).result = .ok p
    ∧ (getData cfg today key f1 s).fetches
        + (getData cfg today key f2 (getData cfg today key f1 s).state).fetches
      ≤ 1 := by
  obtain ⟨hrm, hvalid, hmark, hfile⟩ :=
    getData_ok_state cfg today key f1 s p hforce hage h1
  have h2 : getData cfg today key f2 (getData cfg today key f1 s).state
      = ⟨.ok p, readMetadata (getData cfg today key f1 s).state, 0⟩ :=
    getData_valid_ok cfg today key f2 (getData cfg today key f1 s).state p
      (by rw [hrm]; exact hvalid) (by rw [hrm]; exact hmark) (by rw [hrm]; exact hfile)
  constructor
  · rw [h2]
  · rw [h2]
    simpa using getData_fetches_le_one cfg today key f1 s

/-- Witness for C1 on the spec's concrete scenario: empty cache, one
successful fetch, then a second call that needs no network. -/
theorem cache_get_twice_idempotent_witness :
    ((⟨7, false⟩ : Config).forceCacheUpdate = false)
    ∧ ((0 : Int) < (⟨7, false⟩ : Config).maximumCacheAge)
    ∧ ((getData ⟨7, false⟩ 100 "repository_data" (.response 200 none "payload")
          ⟨[], [], none, []⟩).result = .ok "payload")
    ∧ ((getData ⟨7, false⟩ 100 "repository_data" .connectionFailure
          (getData ⟨7, false⟩ 100 "repository_data" (.response 200 none "payload")
            ⟨[], [], none, []⟩).state).result = .ok "payload"
      ∧ (getData ⟨7, false⟩ 100 "repository_data" (.response 200 none "payload")
            ⟨[], [], none, []⟩).fetches
          + (getData ⟨7, false⟩ 100 "repository_data" .connectionFailure
              (getData ⟨7, false⟩ 100 "repository_data" (.response 200 none "payload")
                ⟨[], [], none, []⟩).state).fetches ≤ 1) :=
  ⟨rfl, by decide, by decide,
    cache_get_twice_idempotent ⟨7, false⟩ 100 "repository_data"
      (.response 200 none "payload") .connectionFailure ⟨[], [], none, []⟩
      "payload" rfl (by decide) (by decide)⟩

/-- Claim C2, counterexample: the error-marker writer at `github.py:192-194`
does not remove an existing data file.  Start from a cache holding an
expired `repository_data` payload (journaled 50 days ago, maximum age 7);
the refetch returns 404 `Not Found`, and afterwards the data file and the
error marker for `repository_data` are simultaneously present. -/
theorem cache_artifact_exclusion_counterexample :
    ((getData ⟨7, false⟩ 100 "repository_data"
        (.response 404 (some "Not Found") "b")
        ⟨[("repository_data", some "old")], [],
         some [("repository_data", 50)], []⟩).state.dataFile.lookup
        "repository_data" = some (some "old"))
    ∧ ((getData ⟨7, false⟩ 100 "repository_data"
        (.response 404 (some "Not Found") "b")
        ⟨[("repository_data", some "old")], [],
         some [("repository_data", 50)], []⟩).state.errorMarker.contains
        "repository_data" = true) := by
  constructor <;> decide

/-- Claim C2 as amended: the success writer does remove the error marker
before writing the payload, so a call that returns a payload leaves no
marker; but the error-marker writer does not remove an existing data file,
so the exclusion only holds when no data file for the key was present
before the call. -/
theorem cache_artifact_exclusion_amended (cfg : Config) (today : Int)
    (key : String) (fetch : FetchResult) (s : CacheState) :
    (∀ p, (getData cfg today key fetch s).result = .ok p →
        (getData cfg today key fetch s).state.errorMarker.contains key = false)
    ∧ ((readMetadata s).dataFile.lookup key = none →
        ¬(((getData cfg today key fetch s).state.dataFile.lookup key).isSome = true
          ∧ (getData cfg today key fetch s).state.errorMarker.contains key = true)) := by
  have hupd : ∀ s1 : CacheState, s1.dataFile.lookup key = none →
      ¬(((updateCache today key fetch s1).state.dataFile.lookup key).isSome = true
        ∧ (updateCache today key fetch s1).state.errorMarker.contains key = true) := by
    intro s1 hnone
    cases fetch with
    | connectionFailure => simp [updateCache_conn, hnone]
    | response status message body =>
      by_cases hst : status = 200
      · subst hst
        simp [updateCache_success, contains_removeMarker_self,
              not_mem_removeMarker_self]
      · by_cases hm : (message.map isRateLimitMessage).getD false = true
        · simp [updateCache, hst, hm, contains_removeMarker_self, hnone]
        · simp [updateCache, hst, hm, saveMetadata, hnone]
  have hok : ∀ p, (getData cfg today key fetch s).result = .ok p →
      (getData cfg today key fetch s).state.errorMarker.contains key = false := by
    intro p hp
    have hupdok : ∀ s1 : CacheState,
        (updateCache today key fetch s1).result = .ok p →
        (updateCache today key fetch s1).state.errorMarker.contains key = false := by
      intro s1 hok1
      cases fetch with
      | connectionFailure => simp [updateCache_conn] at hok1
      | response status message body =>
        by_cases hst : status = 200
        · subst hst
          simp [updateCache_success, contains_removeMarker_self,
                not_mem_removeMarker_self]
        · by_cases hm : (message.map isRateLimitMessage).getD false = true
          · simp [updateCache, hst, hm] at hok1
          · simp [updateCache, hst, hm] at hok1
    by_cases hv : cacheValidB cfg today (readMetadata s) key
    · by_cases hm : (readMetadata s).errorMarker.contains key
      · rw [getData_valid_err cfg today key fetch s hv hm] at hp
        simp at hp
      · cases hd : (readMetadata s).dataFile.lookup key with
        | some v =>
          cases v with
          | some q =>
            rw [getData_valid_ok cfg today key fetch s q hv (by simpa using hm) hd]
            simpa using hm
          | none =>
            have hgd : getData cfg today key fetch s
                = updateCache today key fetch (readMetadata s) := by
              have hm2 : key ∉ (readMetadata s).errorMarker := by simpa using hm
              simp [getData, hv, hm2, hd]
            rw [hgd] at hp ⊢
            exact hupdok (readMetadata s) hp
        | none =>
          have hgd : getData cfg today key fetch s
              = updateCache today key fetch (readMetadata s) := by
            have hm2 : key ∉ (readMetadata s).errorMarker := by simpa using hm
            simp [getData, hv, hm2, hd]
          rw [hgd] at hp ⊢
          exact hupdok (readMetadata s) hp
    · rw [getData_invalid cfg today key fetch s (by simpa using hv)] at hp ⊢
      exact hupdok (readMetadata s) hp
  refine ⟨hok, ?_⟩
  intro hnone
  by_cases hv : cacheValidB cfg today (readMetadata s) key
  · by_cases hm : (readMetadata s).errorMarker.contains key
    · rw [getData_valid_err cfg today key fetch s hv hm]
      simp [hnone]
    · have hm2 : key ∉ (readMetadata s).errorMarker := by simpa using hm
      have hgd : getData cfg today key fetch s
          = updateCache today key fetch (readMetadata s) := by
        simp [getData, hv, hm2, hnone]
      rw [hgd]
      exact hupd (readMetadata s) hnone
  · rw [getData_invalid cfg today key fetch s (by simpa using hv)]
    exact hupd (readMetadata s) hnone

/-- Witness for the amended C2 on a fresh cache directory: after a 404 the
marker is present but no data file, so the exclusion holds. -/
theorem cache_artifact_exclusion_amended_witness :
    ((readMetadata ⟨[], [], none, []⟩).dataFile.lookup "readme" = none)
    ∧ (∀ p, (getData ⟨7, false⟩ 100 "readme"
          (.response 404 (some "Not Found") "b") ⟨[], [], none, []⟩).result = .ok p →
        (getData ⟨7, false⟩ 100 "readme"
          (.response 404 (some "Not Found") "b")
          ⟨[], [], none, []⟩).state.errorMarker.contains "readme" = false)
    ∧ ¬(((getData ⟨7, false⟩ 100 "readme"
          (.response 404 (some "Not Found") "b")
          ⟨[], [], none, []⟩).state.dataFile.lookup "readme").isSome = true
        ∧ (getData ⟨7, false⟩ 100 "readme"
          (.response 404 (some "Not Found") "b")
          ⟨[], [], none, []⟩).state.errorMarker.contains "readme" = true) :=
  ⟨by decide,
   (cache_artifact_exclusion_amended ⟨7, false⟩ 100 "readme"
      (.response 404 (some "Not Found") "b") ⟨[], [], none, []⟩).1,
   (cache_artifact_exclusion_amended ⟨7, false⟩ 100 "readme"
      (.response 404 (some "Not Found") "b") ⟨[], [], none, []⟩).2 (by decide)⟩

/-- Claim C3: for a journaled key, `_test_cache_valid` returns true exactly
when a data file or error marker exists for the key, the force-refresh flag
is unset, and the recorded age `abs(today - journalled day)` is strictly
below the configured maximum cache age. -/
theorem cache_validity_test_iff (cfg : Config) (today t : Int)
    (s : CacheState) (key : String)
    (hj : (readMetadata s).cacheTime.lookup key = some t) :
    (testCacheValid cfg today s key).1 = true ↔
      ((((readMetadata s).dataFile.lookup key).isSome = true
          ∨ (readMetadata s).errorMarker.contains key = true)
        ∧ cfg.forceCacheUpdate = false
        ∧ abs (today - t) < cfg.maximumCacheAge) := by
  simp only [testCacheValid, cacheValidB, cacheAge, hj, Bool.and_eq_true,
             Bool.or_eq_true, Bool.not_eq_eq_eq_not, Bool.not_true,
             decide_eq_true_eq]
  constructor
  · rintro ⟨⟨hex, hforce⟩, hlt⟩
    exact ⟨hex, by simpa using hforce, hlt⟩
  · rintro ⟨hex, hforce, hlt⟩
    exact ⟨⟨hex, by simp [hforce]⟩, hlt⟩

/-- Witness for C3: a journaled, present, fresh entry is valid. -/
theorem cache_validity_test_iff_witness :
    ((readMetadata ⟨[("languages", some "x")], [], some [("languages", 98)], []⟩).cacheTime.lookup
        "languages" = some 98)
    ∧ ((testCacheValid ⟨7, false⟩ 100
          ⟨[("languages", some "x")], [], some [("languages", 98)], []⟩
          "languages").1 = true ↔
        ((((readMetadata ⟨[("languages", some "x")], [], some [("languages", 98)], []⟩).dataFile.lookup
              "languages").isSome = true
            ∨ (readMetadata ⟨[("languages", some "x")], [], some [("languages", 98)], []⟩).errorMarker.contains
              "languages" = true)
          ∧ (⟨7, false⟩ : Config).forceCacheUpdate = false
          ∧ abs ((100 : Int) - 98) < (⟨7, false⟩ : Config).maximumCacheAge)) :=
  ⟨by decide,
   cache_validity_test_iff ⟨7, false⟩ 100 98
     ⟨[("languages", some "x")], [], some [("languages", 98)], []⟩
     "languages" (by decide)⟩

/-- Claim C4: a cached definitive error is re-served without a network call
while the entry's age is inside the staleness window, and once
`maximum_cache_age ≤ age` the next `_get_data` call performs a network
request again. -/
theorem cached_error_staleness_window (cfg : Config) (today t : Int)
    (key : String) (fetch : FetchResult) (s : CacheState)
    (hforce : cfg.forceCacheUpdate = false)
    (hm : (readMetadata s).errorMarker.contains key = true)
    (hj : (readMetadata s).cacheTime.lookup key = some t) :
    (abs (today - t) < cfg.maximumCacheAge →
      getData cfg today key fetch s = ⟨.error .githubError, readMetadata s, 0⟩)
    ∧ (cfg.maximumCacheAge ≤ abs (today - t) →
      (getData cfg today key fetch s).fetches = 1) := by
  constructor
  · intro hlt
    have hm2 : key ∈ (readMetadata s).errorMarker := by simpa using hm
    have hv : cacheValidB cfg today (readMetadata s) key = true := by
      simp [cacheValidB, cacheAge, hj, hm2, hforce, hlt]
    exact getData_valid_err cfg today key fetch s hv hm
  · intro hge
    have hv : cacheValidB cfg today (readMetadata s) key = false := by
      simp [cacheValidB, cacheAge, hj]
      intro
      omega
    rw [getData_invalid cfg today key fetch s hv]
    exact updateCache_fetches today key fetch (readMetadata s)

/-- Witness for C4: a marker journaled 3 days ago with maximum age 7 is
re-served with no request; the same marker journaled 50 days ago triggers a
request. -/
theorem cached_error_staleness_window_witness :
    ((⟨7, false⟩ : Config).forceCacheUpdate = false)
    ∧ ((readMetadata ⟨[], ["commits"], some [("commits", 97)], []⟩).errorMarker.contains
        "commits" = true)
    ∧ ((readMetadata ⟨[], ["commits"], some [("commits", 97)], []⟩).cacheTime.lookup
        "commits" = some 97)
    ∧ (abs ((100 : Int) - 97) < (7 : Int) →
        getData ⟨7, false⟩ 100 "commits" .connectionFailure
            ⟨[], ["commits"], some [("commits", 97)], []⟩
          = ⟨.error .githubError,
             readMetadata ⟨[], ["commits"], some [("commits", 97)], []⟩, 0⟩) :=
  ⟨rfl, by decide, by decide,
   (cached_error_staleness_window ⟨7, false⟩ 100 97 "commits" .connectionFailure
      ⟨[], ["commits"], some [("commits", 97)], []⟩ rfl (by decide) (by decide)).1⟩

/-- Claim C5: when the request happens and returns a non-200 response whose
message is not the rate-limit message, `_get_data` writes the error marker,
stamps today's day number in both the in-memory journal and the saved
`METADATA` file, leaves the data files untouched, and raises
`GithubError`. -/
theorem definitive_error_writes_marker (cfg : Config) (today : Int)
    (key : String) (status : Nat) (message : Option String) (body : String)
    (s : CacheState)
    (hfetch : (getData cfg today key (.response status message body) s).fetches = 1)
    (hstatus : status ≠ 200)
    (hmsg : ∀ m, message = some m → isRateLimitMessage m = false) :
    (getData cfg today key (.response status message body) s).result
        = .error .githubError
    ∧ (getData cfg today key (.response status message body) s).state.errorMarker.contains
        key = true
    ∧ (getData cfg today key (.response status message body) s).state.cacheTime.lookup
        key = some today
    ∧ (getData cfg today key (.response status message body) s).state.metadata
        = some (getData cfg today key (.response status message body) s).state.cacheTime
    ∧ (getData cfg today key (.response status message body) s).state.dataFile
        = (readMetadata s).dataFile := by
  have hgd : getData cfg today key (.response status message body) s
      = updateCache today key (.response status message body) (readMetadata s) := by
    by_cases hv : cacheValidB cfg today (readMetadata s) key
    · by_cases hmk : (readMetadata s).errorMarker.contains key
      · rw [getData_valid_err cfg today key (.response status message body) s hv hmk] at hfetch
        simp at hfetch
      · cases hd : (readMetadata s).dataFile.lookup key with
        | some v =>
          cases v with
          | some q =>
            rw [getData_valid_ok cfg today key (.response status message body) s q hv
                  (by simpa using hmk) hd] at hfetch
            simp at hfetch
          | none =>
            have hm2 : key ∉ (readMetadata s).errorMarker := by simpa using hmk
            simp [getData, hv, hm2, hd]
        | none =>
          have hm2 : key ∉ (readMetadata s).errorMarker := by simpa using hmk
          simp [getData, hv, hm2, hd]
    · exact getData_invalid cfg today key (.response status message body) s
        (by simpa using hv)
  rw [hgd, updateCache_httpError today key status message body (readMetadata s)
        hstatus hmsg]
  refine ⟨rfl, by simp, lookup_insertA_self key today (readMetadata s).cacheTime, rfl, rfl⟩

/-- Witness for C5: empty cache, 404 `Not Found` on `repository_data`. -/
theorem definitive_error_writes_marker_witness :
    ((getData ⟨7, false⟩ 100 "repository_data"
        (.response 404 (some "Not Found") "b") ⟨[], [], none, []⟩).fetches = 1)
    ∧ ((404 : Nat) ≠ 200)
    ∧ ((getData ⟨7, false⟩ 100 "repository_data"
          (.response 404 (some "Not Found") "b") ⟨[], [], none, []⟩).result
        = .error .githubError
      ∧ (getData ⟨7, false⟩ 100 "repository_data"
          (.response 404 (some "Not Found") "b")
          ⟨[], [], none, []⟩).state.errorMarker.contains "repository_data" = true
      ∧ (getData ⟨7, false⟩ 100 "repository_data"
          (.response 404 (some "Not Found") "b")
          ⟨[], [], none, []⟩).state.cacheTime.lookup "repository_data" = some 100) :=
  ⟨by decide, by decide,
   ⟨(definitive_error_writes_marker ⟨7, false⟩ 100 "repository_data" 404
        (some "Not Found") "b" ⟨[], [], none, []⟩ (by decide) (by decide)
        (fun m hm => by cases hm; decide)).1,
    (definitive_error_writes_marker ⟨7, false⟩ 100 "repository_data" 404
        (some "Not Found") "b" ⟨[], [], none, []⟩ (by decide) (by decide)
        (fun m hm => by cases hm; decide)).2.1,
    (definitive_error_writes_marker ⟨7, false⟩ 100 "repository_data" 404
        (some "Not Found") "b" ⟨[], [], none, []⟩ (by decide) (by decide)
        (fun m hm => by cases hm; decide)).2.2.1⟩⟩

/-- Claim C9: a data file (or marker) without a journal entry gets the
default age `maximum_cache_age + 1`, so the validity test fails and
`_get_data` performs a network request instead of serving the unjournaled
file. -/
theorem unjournaled_entry_expired (cfg : Config) (today : Int) (key : String)
    (fetch : FetchResult) (s : CacheState)
    (hex : ((readMetadata s).dataFile.lookup key).isSome = true
        ∨ (readMetadata s).errorMarker.contains key = true)
    (hnj : (readMetadata s).cacheTime.lookup key = none) :
    cacheAge cfg today (readMetadata s).cacheTime key = cfg.maximumCacheAge + 1
    ∧ (testCacheValid cfg today s key).1 = false
    ∧ (getData cfg today key fetch s).fetches = 1 := by
  have hage : cacheAge cfg today (readMetadata s).cacheTime key
      = cfg.maximumCacheAge + 1 := by
    simp [cacheAge, hnj]
  have hlt : ¬(cfg.maximumCacheAge + 1 < cfg.maximumCacheAge) := by omega
  have hv : cacheValidB cfg today (readMetadata s) key = false := by
    simp [cacheValidB, hage, hlt]
  refine ⟨hage, by simpa [testCacheValid] using hv, ?_⟩
  rw [getData_invalid cfg today key fetch s hv]
  exact updateCache_fetches today key fetch (readMetadata s)

/-- Witness for C9: a data file present on disk with an empty journal. -/
theorem unjournaled_entry_expired_witness :
    ((((readMetadata ⟨[("readme", some "x")], [], none, []⟩).dataFile.lookup
          "readme").isSome = true
        ∨ (readMetadata ⟨[("readme", some "x")], [], none, []⟩).errorMarker.contains
          "readme" = true)
      ∧ (readMetadata ⟨[("readme", some "x")], [], none, []⟩).cacheTime.lookup
          "readme" = none)
    ∧ (cacheAge ⟨7, false⟩ 100
          (readMetadata ⟨[("readme", some "x")], [], none, []⟩).cacheTime "readme"
        = (7 : Int) + 1
      ∧ (testCacheValid ⟨7, false⟩ 100 ⟨[("readme", some "x")], [], none, []⟩
          "readme").1 = false
      ∧ (getData ⟨7, false⟩ 100 "readme" .connectionFailure
          ⟨[("readme", some "x")], [], none, []⟩).fetches = 1) :=
  ⟨⟨by decide, by decide⟩,
   unjournaled_entry_expired ⟨7, false⟩ 100 "readme" .connectionFailure
     ⟨[("readme", some "x")], [], none, []⟩ (by decide) (by decide)⟩

/-- Claim C6, counterexample: there is no distinct rate-limit error class.
On an empty cache, a 403 rate-limit response and a 404 `Not Found`
response make `_get_data` fail with the very same exception
(`GithubError`), so the rate-limit failure is not distinct from the
definitive-remote-error class. -/
theorem rate_limit_error_not_distinct_counterexample :
    ((getData ⟨7, false⟩ 100 "repository_data"
        (.response 403 (some "API rate limit exceeded for 1.2.3.4") "b")
        ⟨[], [], none, []⟩).result
      = (getData ⟨7, false⟩ 100 "repository_data"
          (.response 404 (some "Not Found") "b")
          ⟨[], [], none, []⟩).result)
    ∧ ((getData ⟨7, false⟩ 100 "repository_data"
        (.response 403 (some "API rate limit exceeded for 1.2.3.4") "b")
        ⟨[], [], none, []⟩).result = .error .githubError) := by
  constructor <;> decide

/-- Claim C6 as amended: on a rate-limit response `_get_data` raises the
generic `GithubError` — the same class as for a definitive remote error,
no distinct rate-limited class exists — and writes nothing: the data
files, the `METADATA` file and the in-memory journal are unchanged, and
the only marker change is the removal (not creation) of a pre-existing
expired marker for the key. -/
theorem rate_limit_no_cache_write (cfg : Config) (today : Int) (key : String)
    (status : Nat) (m body : String) (s : CacheState)
    (hfetch : (getData cfg today key (.response status (some m) body) s).fetches = 1)
    (hstatus : status ≠ 200)
    (hrl : isRateLimitMessage m = true) :
    (getData cfg today key (.response status (some m) body) s).result
        = .error .githubError
    ∧ (getData cfg today key (.response status (some m) body) s).state.dataFile
        = (readMetadata s).dataFile
    ∧ (getData cfg today key (.response status (some m) body) s).state.errorMarker
        = removeMarker key (readMetadata s).errorMarker
    ∧ (getData cfg today key (.response status (some m) body) s).state.metadata
        = s.metadata
    ∧ (getData cfg today key (.response status (some m) body) s).state.cacheTime
        = (readMetadata s).cacheTime
    ∧ (getData cfg today key (.response status (some m) body) s).state.errorMarker.contains
        key = false := by
  have hgd : getData cfg today key (.response status (some m) body) s
      = updateCache today key (.response status (some m) body) (readMetadata s) := by
    by_cases hv : cacheValidB cfg today (readMetadata s) key
    · by_cases hmk : (readMetadata s).errorMarker.contains key
      · rw [getData_valid_err cfg today key (.response status (some m) body) s hv hmk]
          at hfetch
        simp at hfetch
      · cases hd : (readMetadata s).dataFile.lookup key with
        | some v =>
          cases v with
          | some q =>
            rw [getData_valid_ok cfg today key (.response status (some m) body) s q hv
                  (by simpa using hmk) hd] at hfetch
            simp at hfetch
          | none =>
            have hm2 : key ∉ (readMetadata s).errorMarker := by simpa using hmk
            simp [getData, hv, hm2, hd]
        | none =>
          have hm2 : key ∉ (readMetadata s).errorMarker := by simpa using hmk
          simp [getData, hv, hm2, hd]
    · exact getData_invalid cfg today key (.response status (some m) body) s
        (by simpa using hv)
  rw [hgd, updateCache_rateLimited today key status m body (readMetadata s) hstatus hrl]
  exact ⟨rfl, rfl, rfl, readMetadata_metadata s, rfl,
         contains_removeMarker_self key (readMetadata s).errorMarker⟩

/-- Witness for the amended C6: rate-limited 403 on an empty cache. -/
theorem rate_limit_no_cache_write_witness :
    ((getData ⟨7, false⟩ 100 "languages"
        (.response 403 (some "API rate limit exceeded for 1.2.3.4") "b")
        ⟨[], [], none, []⟩).fetches = 1)
    ∧ (isRateLimitMessage "API rate limit exceeded for 1.2.3.4" = true)
    ∧ ((getData ⟨7, false⟩ 100 "languages"
          (.response 403 (some "API rate limit exceeded for 1.2.3.4") "b")
          ⟨[], [], none, []⟩).result = .error .githubError
      ∧ (getData ⟨7, false⟩ 100 "languages"
          (.response 403 (some "API rate limit exceeded for 1.2.3.4") "b")
          ⟨[], [], none, []⟩).state.metadata = none) :=
  ⟨by decide, by decide,
   ⟨(rate_limit_no_cache_write ⟨7, false⟩ 100 "languages" 403
       "API rate limit exceeded for 1.2.3.4" "b" ⟨[], [], none, []⟩
       (by decide) (by decide) (by decide)).1,
    (rate_limit_no_cache_write ⟨7, false⟩ 100 "languages" 403
       "API rate limit exceeded for 1.2.3.4" "b" ⟨[], [], none, []⟩
       (by decide) (by decide) (by decide)).2.2.2.1⟩⟩

/-- Claim C7, counterexample: in `check_stale_lock` the guarded lock
`<path>` is acquired with the plain base timeout (`time`, `utility.py:118`),
not with the worker-scaled jittered timeout — that long timeout is used for
the `<path>_STALE` gate (`utility.py:110`).  Concretely, with base 20 s,
4 workers and jitter 1/2, the run that declares the lock stale attempts
`<path>` with timeout 20, and no attempt on `<path>` uses the long timeout
41. -/
theorem stale_lock_timeout_roles_counterexample :
    (LockEvent.acquire "LOCK" 20 false
        ∈ checkStaleLock "LOCK" 20 4 (fun _ => 1/2) 0 true)
    ∧ (LockEvent.acquire "LOCK_STALE" (gateTimeout 20 4 (1/2)) true
        ∈ checkStaleLock "LOCK" 20 4 (fun _ => 1/2) 0 true)
    ∧ ¬(LockEvent.acquire "LOCK" (gateTimeout 20 4 (1/2)) false
        ∈ checkStaleLock "LOCK" 20 4 (fun _ => 1/2) 0 true)
    ∧ gateTimeout 20 4 (1/2) = 41 := by
  have hgt : gateTimeout 20 4 (1/2) = (41 : ℚ) := by
    rw [gateTimeout]
    norm_num
  have htrace : checkStaleLock "LOCK" 20 4 (fun _ => 1/2) 0 true
      = [.acquire "LOCK_STALE" (gateTimeout 20 4 (1/2)) true,
         .acquire "LOCK" 20 false, .breakLock "LOCK", .release "LOCK_STALE"] := by
    simp [checkStaleLock, gateLoop]
  refine ⟨?_, ?_, ?_, hgt⟩
  · rw [htrace]
    simp
  · rw [htrace]
    simp
  · rw [htrace, hgt]
    intro h
    simp only [List.mem_cons, List.not_mem_nil, or_false] at h
    rcases h with h | h | h | h
    · exact LockEvent.noConfusion h fun hp ht hs => absurd hp (by decide)
    · exact LockEvent.noConfusion h fun hp ht hs => by norm_num at ht
    · exact LockEvent.noConfusion h
    · exact LockEvent.noConfusion h

/-- Claim C7 as amended: the long timeout
`time + time/5*worker + (time/2)*jitter` is the one used to acquire the
`<path>_STALE` gate; while the gate is held, `<path>` itself is attempted
with the base timeout `time`, and if that acquisition times out the lock is
forcibly broken before the gate is released.  The trace of a run whose
`<path>` acquisition times out is exactly some gate activity (acquisitions
with the long jittered timeout and gate breaks) followed by the base-timeout
attempt on `<path>`, the break of `<path>`, and the gate release. -/
theorem stale_lock_recovery_amended (lockPath : String) (time : ℚ)
    (worker : Nat) (jitter : Nat → ℚ) (gateFailures : Nat) :
    ∃ pre,
      checkStaleLock lockPath time worker jitter gateFailures true
        = pre ++ [.acquire lockPath time false, .breakLock lockPath,
                  .release (lockPath ++ "_STALE")]
      ∧ ∀ e ∈ pre,
          (∃ i b, e = .acquire (lockPath ++ "_STALE")
              (gateTimeout time worker (jitter i)) b)
          ∨ e = .breakLock (lockPath ++ "_STALE") := by
  refine ⟨gateLoop (lockPath ++ "_STALE") time worker jitter 0 gateFailures,
          ?_, ?_⟩
  · simp [checkStaleLock]
  · have main : ∀ n i, ∀ e ∈ gateLoop (lockPath ++ "_STALE") time worker jitter i n,
        (∃ j b, e = .acquire (lockPath ++ "_STALE")
            (gateTimeout time worker (jitter j)) b)
        ∨ e = .breakLock (lockPath ++ "_STALE") := by
      intro n
      induction n with
      | zero =>
        intro i e he
        simp only [gateLoop, List.mem_cons, List.not_mem_nil, or_false] at he
        exact Or.inl ⟨i, true, he⟩
      | succ k ih =>
        intro i e he
        simp only [gateLoop, List.mem_cons] at he
        rcases he with he | he | he
        · exact Or.inl ⟨i, false, he⟩
        · exact Or.inr he
        · exact ih (i + 1) e he
    exact main gateFailures 0

/-- Claim C8: with `1 ≤ W ≤ N`, a batch run over any execution the queue
discipline permits returns exactly `N` results when every worker exits
cleanly; in general it returns at most `N` results, and the number of
failed workers is what `batch` counts and logs. -/
theorem batch_result_count (n w : Nat) (e : BatchExec)
    (hw1 : 1 ≤ w) (hwn : w ≤ n) (hv : ValidExec n w e) :
    (failedCount e = 0 → (batchRun n e).results = n)
    ∧ (batchRun n e).results ≤ n
    ∧ (batchRun n e).failed = failedCount e := by
  obtain ⟨hlen, hpart, hle, hclean, hnoleft⟩ := hv
  refine ⟨?_, ?_, rfl⟩
  · intro hfail
    have hallclean : ∀ wk ∈ e.workers, wk.clean = true := by
      intro wk hwk
      have := List.filter_eq_nil_iff.mp (List.length_eq_zero.mp hfail) wk hwk
      simpa using this
    have hne : e.workers ≠ [] := by
      intro hnil
      rw [hnil] at hlen
      simp at hlen
      omega
    obtain ⟨wk0, hwk0⟩ := List.exists_mem_of_ne_nil e.workers hne
    have hleft : e.leftover = 0 := hnoleft ⟨wk0, hwk0, hallclean wk0 hwk0⟩
    have hcc : totalCompleted e = totalConsumed e := by
      unfold totalCompleted totalConsumed
      exact congrArg List.sum
        (List.map_congr_left fun wk hwk => hclean wk hwk (hallclean wk hwk))
    simp only [batchRun, hcc]
    omega
  · have hcc : totalCompleted e ≤ totalConsumed e := by
      unfold totalCompleted totalConsumed
      exact List.sum_le_sum hle
    simp only [batchRun]
    omega

/-- Witness for C8: two items, one clean worker that consumed and completed
both. -/
theorem batch_result_count_witness :
    ((1 : Nat) ≤ 1 ∧ (1 : Nat) ≤ 2 ∧ ValidExec 2 1 ⟨[⟨2, 2, true⟩], 0⟩)
    ∧ ((failedCount ⟨[⟨2, 2, true⟩], 0⟩ = 0 →
          (batchRun 2 ⟨[⟨2, 2, true⟩], 0⟩).results = 2)
      ∧ (batchRun 2 ⟨[⟨2, 2, true⟩], 0⟩).results ≤ 2
      ∧ (batchRun 2 ⟨[⟨2, 2, true⟩], 0⟩).failed
          = failedCount ⟨[⟨2, 2, true⟩], 0⟩) :=
  ⟨⟨by decide, by decide, by decide⟩,
   batch_result_count 2 1 ⟨[⟨2, 2, true⟩], 0⟩ (by decide) (by decide) (by decide)⟩

/-- Claim C10: `batch` on an empty input list returns the empty result set
immediately: no queue is created and no worker process is spawned, for
every configuration and pool behaviour. -/
theorem batch_empty_input_immediate (cpuCount : Nat) (numberWorker : Int)
    (e : BatchExec) :
    batchTop cpuCount numberWorker 0 e = (⟨0, 0, false⟩, ⟨false, 0⟩) := by
  simp [batchTop]

end ClassifyHub

